import Mathlib

/-!
Verification development for the bioimage.io core execution engine
(`bioimageio.core`): a shallow embedding of the prediction-pipeline setup
(`proc_setup.py`), the model testing entry point (`_resource_tests.py`),
prediction input normalization (`prediction.py`), RDF resolution inside zip
packages (`io.py`) and the ONNX model adapter
(`model_adapters/_onnx_model_adapter.py`), together with theorems settling
the frozen claims about those components.

Components of the repository that are imported by the embedded modules but
whose source is not available (`stat_calculators.py`, `proc_ops.py`,
`sample.py`) are modelled from the design document; each such definition
carries a doc comment starting with `Modelled from the spec:`.
-/

/-! ## Shared data model: tensors, samples, measures -/

/-- A named axis-tagged tensor: `dims` are the axis tags, `shape` the extent
per axis, `data` the flattened numeric payload (numerics modelled as `Rat`). -/
structure Tensor where
  dims : List String
  shape : List Nat
  data : List Rat
deriving DecidableEq, Repr

/-- Scope of a statistic: per-sample or over a whole dataset. -/
inductive MeasureScope where
  | sample
  | dataset
deriving DecidableEq, Repr

/-- The statistic kind of a measure. -/
inductive StatKind where
  | mean
  | std
  | var
  | percentile (q : Nat)
  | minimum
  | maximum
deriving DecidableEq, Repr

/-- A measure: which statistic, of which tensor (member), over which axes.
Equality is structural, which is what underlies deduplication of required
measures in `proc_setup.py`. -/
structure Measure where
  scope : MeasureScope
  member_id : String
  axes : Option (List String)
  kind : StatKind
deriving DecidableEq, Repr

/-- Modelled from the spec: `sample.py` is not under src/. A Sample is an
ordered mapping from tensor-slot identifiers to Tensor values. -/
structure Sample where
  members : List (String × Tensor)
deriving DecidableEq, Repr

/-- Look up a member tensor by its id. -/
def Sample.lookup (s : Sample) (id : String) : Option Tensor :=
  (s.members.find? (fun p => decide (p.1 = id))).map (fun p => p.2)

/-- Python's `str.endswith`, evaluated over the underlying character
lists. -/
def strEndsWith (s suffix : String) : Bool := suffix.data.isSuffixOf s.data

/-- Association-list lookup by decidable equality on the key. -/
def alookup {α β : Type} [DecidableEq α] (l : List (α × β)) (a : α) : Option β :=
  (l.find? (fun p => decide (p.1 = a))).map (fun p => p.2)

/-- Insertion sort step, used by the deterministic percentile estimator. -/
def insertSorted (x : Rat) : List Rat → List Rat
  | [] => [x]
  | y :: ys => if x ≤ y then x :: y :: ys else y :: insertSorted x ys

/-- Deterministic sort for the percentile estimator. -/
def sortRats (l : List Rat) : List Rat :=
  l.foldr insertSorted []

/-- Modelled from the spec: the numeric evaluation of a Measure over the
samples folded into its aggregation (`stat_calculators.py` is not under
src/). Deterministic for a fixed input sequence; `none` when the measure's
target tensor was never observed. The mean is exact; `std` is represented by
the variance value since an exact square root does not exist in `Rat` (no
claim under verification depends on the numeric formula, only on determinism
and on value sharing). -/
def computeMeasure (samples : List Sample) (m : Measure) : Option Rat :=
  let vals := (samples.filterMap (fun s => s.lookup m.member_id)).flatMap (fun t => t.data)
  match vals with
  | [] => none
  | v :: vs =>
    some (match m.kind with
      | StatKind.mean => (v :: vs).sum / ((v :: vs).length : Rat)
      | StatKind.var =>
          ((v :: vs).map (fun x => x * x)).sum / ((v :: vs).length : Rat) -
            ((v :: vs).sum / ((v :: vs).length : Rat)) *
              ((v :: vs).sum / ((v :: vs).length : Rat))
      | StatKind.std =>
          ((v :: vs).map (fun x => x * x)).sum / ((v :: vs).length : Rat) -
            ((v :: vs).sum / ((v :: vs).length : Rat)) *
              ((v :: vs).sum / ((v :: vs).length : Rat))
      | StatKind.percentile q =>
          (sortRats (v :: vs)).getD (q * ((v :: vs).length - 1) / 100) v
      | StatKind.minimum => vs.foldl (fun a b => if b < a then b else a) v
      | StatKind.maximum => vs.foldl (fun a b => if a < b then b else a) v)

/-! ## StatsCalculator (modelled from the spec) -/

/-- Modelled from the spec: `stat_calculators.py` is not under src/. A
StatsCalculator owns a set of required Measures, optionally seeded known
values (measures fixed by the caller, excluded from active aggregation), and
the aggregation state.  The aggregation state is kept as an explicit log of
(measure, sample) folds so that "a sample was folded into this measure's
aggregation" is directly observable. -/
structure StatsCalculator where
  required_measures : List Measure
  seed : List (Measure × Rat)
  agg : List (Measure × Sample)
deriving DecidableEq

/-- Modelled from the spec: `update(sample)` folds one Sample into the
running aggregates of every required Measure whose target tensor is present
in the sample; seeded measures are excluded from active aggregation;
irrelevant measures are ignored. -/
def StatsCalculator.update (c : StatsCalculator) (s : Sample) : StatsCalculator :=
  { c with
    agg := c.agg ++
      (c.required_measures.filter
        (fun m => (alookup c.seed m).isNone && (s.lookup m.member_id).isSome)).map
        (fun m => (m, s)) }

/-- The samples folded into measure `m`'s aggregation so far. -/
def StatsCalculator.sampleLog (c : StatsCalculator) (m : Measure) : List Sample :=
  (c.agg.filter (fun p => decide (p.1 = m))).map (fun p => p.2)

/-- Modelled from the spec: `finalize()` returns a mapping from every
required Measure to its value: seeded measures verbatim, the others computed
from the samples folded into their aggregation.  Failure (a required
unseeded measure that was never observed) is modelled by the separate
predicate `StatsCalculator.finalizeFails`; `finalize` simply omits such
measures. -/
def StatsCalculator.finalize (c : StatsCalculator) : List (Measure × Rat) :=
  c.required_measures.filterMap (fun m =>
    match alookup c.seed m with
    | some v => some (m, v)
    | none => (computeMeasure (c.sampleLog m) m).map (fun v => (m, v)))

/-- Modelled from the spec: `finalize` fails when some required measure is
neither seeded nor observed in any folded sample. -/
def StatsCalculator.finalizeFails (c : StatsCalculator) : Bool :=
  c.required_measures.any (fun m =>
    (alookup c.seed m).isNone && (computeMeasure (c.sampleLog m) m).isNone)

/-! ## Model description and processing operators (`proc_setup.py`) -/

/-- A declared pre/post-processing step of a tensor description: its kind
name and the Measures the resulting operator requires. -/
structure ProcStep where
  name : String
  required_measures : List Measure
deriving DecidableEq, Repr

/-- v0.4 input tensor description (the fields used by `proc_setup.py`). -/
structure InputTensorDescrV4 where
  name : String
  data_type : String
  preprocessing : List ProcStep
deriving DecidableEq, Repr

/-- v0.4 output tensor description (the fields used by `proc_setup.py`). -/
structure OutputTensorDescrV4 where
  name : String
  data_type : String
  postprocessing : List ProcStep
deriving DecidableEq, Repr

/-- The size of a v0.5 axis: fixed, parameterized (`min + n*step`), or a
reference to another tensor's axis. -/
inductive AxisSizeV5 where
  | fixed (n : Nat)
  | parameterized (minimum step : Nat)
  | reference (tensor_id axis_id : String)
deriving DecidableEq, Repr

/-- A v0.5 axis: its id and size. -/
structure AxisV5 where
  id : String
  size : AxisSizeV5
deriving DecidableEq, Repr

/-- v0.5 input tensor description (the fields used by the embedded code). -/
structure InputTensorDescrV5 where
  id : String
  axes : List AxisV5
  preprocessing : List ProcStep
deriving DecidableEq, Repr

/-- v0.5 output tensor description (the fields used by the embedded code). -/
structure OutputTensorDescrV5 where
  id : String
  axes : List AxisV5
  postprocessing : List ProcStep
deriving DecidableEq, Repr

/-- A model description: either format v0.4 or v0.5, with its input and
output tensor descriptions. -/
inductive ModelDescr where
  | v0_4 (inputs : List InputTensorDescrV4) (outputs : List OutputTensorDescrV4)
  | v0_5 (inputs : List InputTensorDescrV5) (outputs : List OutputTensorDescrV5)
deriving DecidableEq, Repr

/-- A processing operator over a Sample, as used by `proc_setup.py`:
dtype normalization, statistics injection (`UpdateStats`,
`AddKnownDatasetStats`), or a declared transformation step translated from
the model description. -/
inductive Processing where
  | ensureDtype (input output dtype : String)
  | updateStats (stats_calculator : StatsCalculator)
      (keep_updating_initial_dataset_stats : Bool)
  | addKnownDatasetStats (dataset_stats : List (Measure × Rat))
  | declared (member_id : String) (step : ProcStep)
deriving DecidableEq

/-- The Measures a processing operator requires as inputs.  `EnsureDtype`
requires none; translated declared steps require their step's measures. -/
def Processing.required_measures : Processing → List Measure
  | Processing.declared _ step => step.required_measures
  | _ => []

/-- Modelled from the spec: `preproc_v4_to_processing` lives in
`proc_ops.py`, which is not under src/.  Per the design, each declared step
translates into exactly one Processing operator for its tensor. -/
def preproc_v4_to_processing (t_descr : InputTensorDescrV4) (proc_d : ProcStep) : Processing :=
  Processing.declared t_descr.name proc_d

/-- Modelled from the spec: `postproc_v4_to_processing` (see
`preproc_v4_to_processing`). -/
def postproc_v4_to_processing (t_descr : OutputTensorDescrV4) (proc_d : ProcStep) : Processing :=
  Processing.declared t_descr.name proc_d

/-- Modelled from the spec: `preproc_v5_to_processing` (see
`preproc_v4_to_processing`). -/
def preproc_v5_to_processing (t_descr : InputTensorDescrV5) (proc_d : ProcStep) : Processing :=
  Processing.declared t_descr.id proc_d

/-- Modelled from the spec: `postproc_v5_to_processing` (see
`preproc_v4_to_processing`). -/
def postproc_v5_to_processing (t_descr : OutputTensorDescrV5) (proc_d : ProcStep) : Processing :=
  Processing.declared t_descr.id proc_d

/-- `_prepare_v4_preprocs`: for each v0.4 input tensor, first an
`EnsureDtype` operator for the tensor's declared dtype, then one operator
per declared preprocessing step; plus the set of required measures. -/
def _prepare_v4_preprocs (tensor_descrs : List InputTensorDescrV4) :
    List Processing × List Measure :=
  let procs := tensor_descrs.flatMap (fun t_descr =>
    Processing.ensureDtype t_descr.name t_descr.name t_descr.data_type ::
      t_descr.preprocessing.map (fun proc_d => preproc_v4_to_processing t_descr proc_d))
  let measures := (procs.flatMap Processing.required_measures).dedup
  (procs, measures)

/-- `_prepare_v4_postprocs`: like `_prepare_v4_preprocs` for outputs. -/
def _prepare_v4_postprocs (tensor_descrs : List OutputTensorDescrV4) :
    List Processing × List Measure :=
  let procs := tensor_descrs.flatMap (fun t_descr =>
    Processing.ensureDtype t_descr.name t_descr.name t_descr.data_type ::
      t_descr.postprocessing.map (fun proc_d => postproc_v4_to_processing t_descr proc_d))
  let measures := (procs.flatMap Processing.required_measures).dedup
  (procs, measures)

/-- `_prepare_v5_preprocs`: for each v0.5 input tensor, one operator per
declared preprocessing step (no `EnsureDtype` is added). -/
def _prepare_v5_preprocs (tensor_descrs : List InputTensorDescrV5) :
    List Processing × List Measure :=
  let procs := tensor_descrs.flatMap (fun t_descr =>
    t_descr.preprocessing.map (fun proc_d => preproc_v5_to_processing t_descr proc_d))
  let measures := (procs.flatMap Processing.required_measures).dedup
  (procs, measures)

/-- `_prepare_v5_postprocs`: like `_prepare_v5_preprocs` for outputs. -/
def _prepare_v5_postprocs (tensor_descrs : List OutputTensorDescrV5) :
    List Processing × List Measure :=
  let procs := tensor_descrs.flatMap (fun t_descr =>
    t_descr.postprocessing.map (fun proc_d => postproc_v5_to_processing t_descr proc_d))
  let measures := (procs.flatMap Processing.required_measures).dedup
  (procs, measures)

/-- The `_SetupProcessing` named tuple of `proc_setup.py`. -/
structure SetupProcessing where
  pre : List Processing
  post : List Processing
  pre_measures : List Measure
  post_measures : List Measure

/-- `_prepare_setup_pre_and_postprocessing`: dispatch on the description
format version. -/
def _prepare_setup_pre_and_postprocessing (model : ModelDescr) : SetupProcessing :=
  match model with
  | ModelDescr.v0_4 inputs outputs =>
    let pre := _prepare_v4_preprocs inputs
    let post := _prepare_v4_postprocs outputs
    ⟨pre.1, post.1, pre.2, post.2⟩
  | ModelDescr.v0_5 inputs outputs =>
    let pre := _prepare_v5_preprocs inputs
    let post := _prepare_v5_postprocs outputs
    ⟨pre.1, post.1, pre.2, post.2⟩

/-- The `PreAndPostprocessing` named tuple of `proc_setup.py`. -/
structure PreAndPostprocessing where
  pre : List Processing
  post : List Processing
deriving DecidableEq

/-- Whether a measure is NOT covered by the (optional) externally fixed
dataset statistics. -/
def notFixed (fixed_dataset_stats : Option (List (Measure × Rat))) (m : Measure) : Bool :=
  match fixed_dataset_stats with
  | none => true
  | some f => (alookup f m).isNone

/-- The initial-pass statistics calculator: constructed with the missing
measures and fed every sample of `dataset_for_initial_statistics`. -/
def initialStatsCalc (missing_dataset_stats : List Measure)
    (dataset_for_initial_statistics : List Sample) : StatsCalculator :=
  dataset_for_initial_statistics.foldl StatsCalculator.update
    ⟨missing_dataset_stats, [], []⟩

/-- The measures required by `model` not covered by the fixed stats. -/
def missingDatasetStats (model : ModelDescr)
    (fixed_dataset_stats : Option (List (Measure × Rat))) : List Measure :=
  let s := _prepare_setup_pre_and_postprocessing model
  ((s.pre_measures ++ s.post_measures).dedup).filter
    (fun m => notFixed fixed_dataset_stats m)

/-- The finalized initial statistics of `setup_pre_and_postprocessing`. -/
def initialStats (model : ModelDescr) (dataset_for_initial_statistics : List Sample)
    (fixed_dataset_stats : Option (List (Measure × Rat))) : List (Measure × Rat) :=
  let missing := missingDatasetStats model fixed_dataset_stats
  if missing ≠ [] then
    (initialStatsCalc missing dataset_for_initial_statistics).finalize
  else []

/-- `setup_pre_and_postprocessing`: assemble the pre and post operator
lists, run the initial dataset-statistics pass over the measures not fixed
by the caller, insert an `UpdateStats` operator at index 0 of the pre list
(and of the post list when the post direction requires measures), and, when
fixed stats were supplied (and nonempty, per Python truthiness), insert an
`AddKnownDatasetStats` operator at the very head of both lists. -/
def setup_pre_and_postprocessing (model : ModelDescr)
    (dataset_for_initial_statistics : List Sample)
    (keep_updating_initial_dataset_stats : Bool)
    (fixed_dataset_stats : Option (List (Measure × Rat))) : PreAndPostprocessing :=
  let s := _prepare_setup_pre_and_postprocessing model
  let initial_stats := initialStats model dataset_for_initial_statistics fixed_dataset_stats
  let prep := Processing.updateStats ⟨s.pre_measures, initial_stats, []⟩
      keep_updating_initial_dataset_stats :: s.pre
  let post :=
    if s.post_measures ≠ [] then
      Processing.updateStats ⟨s.post_measures, initial_stats, []⟩
        keep_updating_initial_dataset_stats :: s.post
    else s.post
  match fixed_dataset_stats with
  | some f =>
    if f ≠ [] then
      ⟨Processing.addKnownDatasetStats f :: prep, Processing.addKnownDatasetStats f :: post⟩
    else ⟨prep, post⟩
  | none => ⟨prep, post⟩

/-- Modelled from the spec: applying the `AddKnownDatasetStats` operator to
a sample's stats scope unconditionally injects the fixed values
(`proc_ops.py` is not under src/). Other operators do not concern the
claims' scope-injection statements and leave the scope unchanged here. -/
def applyToScope (p : Processing) (scope : List (Measure × Rat)) : List (Measure × Rat) :=
  match p with
  | Processing.addKnownDatasetStats f => f ++ scope
  | _ => scope

/-! ## Testing entry point (`_resource_tests.py`) -/

/-- A structured error entry of a validation detail. -/
structure ErrorEntry where
  loc : List String
  msg : String
  type : String
  traceback : List String
deriving DecidableEq, Repr

/-- A named pass/fail detail record of a validation summary. -/
structure ValidationDetail where
  name : String
  status : String
  errors : List ErrorEntry
deriving DecidableEq, Repr

/-- A Python exception as observed by the testing entry point: its message
(`str(e)`) and formatted traceback (`traceback.format_tb`). -/
structure PyExn where
  msg : String
  traceback : List String
deriving DecidableEq, Repr

/-- The `loc` written into a failed detail's error entry: `("weights",)`
or `("weights", weight_format)`. -/
def errLoc (weight_format : Option String) : List String :=
  match weight_format with
  | none => ["weights"]
  | some wf => ["weights", wf]

/-- The per-output comparison loop of `_test_model_inference`: each failing
comparison appends its message to the accumulated error string. -/
def accumulateCompareErrors (compare : Tensor → Tensor → Option String) :
    List (Tensor × Tensor) → Option String → Option String
  | [], error => error
  | p :: rest, error =>
    match compare p.1 p.2 with
    | none => accumulateCompareErrors compare rest error
    | some e =>
      accumulateCompareErrors compare rest
        (some ((error.getD "") ++ "Output and expected output disagree:\n " ++ e))

/-- `_test_model_inference`: load the test tensors, run the prediction
pipeline, compare outputs against expected outputs, and record one
validation detail.  The fallible external phases are passed in as
`Except`-valued computations (loading the test tensors; constructing the
pipeline and running forward), mirroring that any exception raised by them
is caught by the surrounding `try`.  Returns the produced detail together
with the list of (result, expected) pairs that were actually compared. -/
def _test_model_inference
    (load_test_tensors : Except PyExn (List Tensor × List Tensor))
    (pipeline_forward : List Tensor → Except PyExn (List Tensor))
    (compare : Tensor → Tensor → Option String)
    (weight_format : Option String) : ValidationDetail × List (Tensor × Tensor) :=
  let r : Option String × List String × List (Tensor × Tensor) :=
    match load_test_tensors with
    | Except.error e => (some e.msg, e.traceback, [])
    | Except.ok (inputs, expected) =>
      match pipeline_forward inputs with
      | Except.error e => (some e.msg, e.traceback, [])
      | Except.ok results =>
        if results.length ≠ expected.length then
          (some ("Expected " ++ toString expected.length ++ " outputs, but got " ++
            toString results.length), [], [])
        else
          (accumulateCompareErrors compare (results.zip expected) none, [],
            results.zip expected)
  (⟨"Reproduce test outputs from test inputs",
    if r.1 = none then "passed" else "failed",
    match r.1 with
    | none => []
    | some msg => [⟨errLoc weight_format, msg, "bioimageio.core", r.2.1⟩]⟩,
   r.2.2)

/-- `load_description_and_test` restricted to the model-inference phase: the
description's validation summary always receives the detail produced by
`_test_model_inference`, whatever the outcome of the fallible phases. -/
def load_description_and_test (prior_details : List ValidationDetail)
    (load_test_tensors : Except PyExn (List Tensor × List Tensor))
    (pipeline_forward : List Tensor → Except PyExn (List Tensor))
    (compare : Tensor → Tensor → Option String)
    (weight_format : Option String) : List ValidationDetail :=
  prior_details ++
    [(_test_model_inference load_test_tensors pipeline_forward compare weight_format).1]

/-- `test_description` returns the validation summary produced by
`load_description_and_test`. -/
def test_description (prior_details : List ValidationDetail)
    (load_test_tensors : Except PyExn (List Tensor × List Tensor))
    (pipeline_forward : List Tensor → Except PyExn (List Tensor))
    (compare : Tensor → Tensor → Option String)
    (weight_format : Option String) : List ValidationDetail :=
  load_description_and_test prior_details load_test_tensors pipeline_forward compare
    weight_format

/-! ## Parametrized-input testing (`_test_model_inference_with_parametrized_inputs`) -/

/-- One synthetic test case for a parameter value: the inputs to feed and
the expected output shapes. -/
structure ParametrizedTestCase where
  inputs : List Tensor
  expected_output_shapes : List (List Nat)
deriving DecidableEq, Repr

/-- Modelled from the spec: the body of `generate_test_cases` inside
`_test_model_inference_with_parametrized_inputs` is truncated in the source
right after `for n in [0, 1, 2, 3]:`; per the design document, it yields one
synthetic test case per parameter value n ∈ {0,1,2,3}.  How a single case is
built from the model description is abstracted as `case_for`. -/
def generate_test_cases (case_for : Nat → ParametrizedTestCase) :
    List (Nat × ParametrizedTestCase) :=
  [0, 1, 2, 3].map (fun n => (n, case_for n))

/-- The per-case check of the parametrized test: output-count mismatch, else
shape-only comparison of each output against its expected shape, with the
error string accumulated exactly as in the source. -/
def checkCaseShapes (n : Nat) (expected_output_shapes : List (List Nat))
    (results : List Tensor) : Option String :=
  if results.length ≠ expected_output_shapes.length then
    some ("Expected " ++ toString expected_output_shapes.length ++ " outputs, but got " ++
      toString results.length)
  else
    (results.zip expected_output_shapes).foldl
      (fun error p =>
        if p.1.shape ≠ p.2 then
          some ((error.getD "") ++ "(n=" ++ toString n ++ ") Expected output shape " ++
            toString expected_output_shapes ++ ", but got " ++ toString p.1.shape ++ "\n")
        else error)
      none

/-- The test-case loop of `_test_model_inference_with_parametrized_inputs`:
each generated case is forwarded through the pipeline and its shapes are
checked; the loop `break`s as soon as an error was recorded.  Returns the
final error and the list of parameter values that were actually forwarded. -/
def runParametrizedCases (pipeline_forward : List Tensor → List Tensor) :
    List (Nat × ParametrizedTestCase) → Option String × List Nat
  | [] => (none, [])
  | c :: rest =>
    let results := pipeline_forward c.2.inputs
    match checkCaseShapes c.1 c.2.expected_output_shapes results with
    | some e => (some e, [c.1])
    | none =>
      let r := runParametrizedCases pipeline_forward rest
      (r.1, c.1 :: r.2)

/-- Does some axis of some input have a parameterized size? -/
def hasParameterizedInputAxis (inputs : List InputTensorDescrV5) : Bool :=
  inputs.any (fun ipt => ipt.axes.any (fun a =>
    match a.size with
    | AxisSizeV5.parameterized _ _ => true
    | _ => false))

/-- `_test_model_inference_with_parametrized_inputs`: returns immediately
(recording nothing) unless some input axis is parameterized; otherwise runs
the generated cases through the pipeline and records one validation detail.
Returns the optional detail and the parameter values actually forwarded. -/
def _test_model_inference_with_parametrized_inputs
    (inputs : List InputTensorDescrV5)
    (case_for : Nat → ParametrizedTestCase)
    (pipeline_forward : List Tensor → List Tensor)
    (weight_format : Option String) : Option ValidationDetail × List Nat :=
  if hasParameterizedInputAxis inputs = false then (none, [])
  else
    let r := runParametrizedCases pipeline_forward (generate_test_cases case_for)
    (some ⟨"Reproduce test outputs from test inputs",
      if r.1 = none then "passed" else "failed",
      match r.1 with
      | none => []
      | some msg => [⟨errLoc weight_format, msg, "bioimageio.core", []⟩]⟩,
     r.2)

/-! ## Prediction input normalization (`prediction.py`) -/

/-- The accepted shapes of the `inputs` argument of `predict`: a mapping
from tensor id, a sequence (list/tuple), or a bare tensor / numpy array. -/
inductive PredictInputs (T : Type) where
  | mapping (m : List (String × T))
  | seq (l : List T)
  | single (t : T)
deriving DecidableEq, Repr

/-- The input-normalization prefix of `predict`: a mapping is resolved by
the pipeline's declared input ids (a missing key raises `KeyError`); a bare
tensor is wrapped as a one-element sequence; a sequence is taken as-is; in
the non-mapping cases an `assert` then requires the sequence's length to
equal the number of declared input ids.  On success the checked sequence is
handed to the rest of `predict` (tagging and `pipeline.forward`), which is
abstracted as `forward_rest`. -/
def predict {T R : Type} (input_ids : List String) (inputs : PredictInputs T)
    (forward_rest : List T → R) : Except String R :=
  match inputs with
  | PredictInputs.mapping m =>
    match input_ids.mapM (fun tid => alookup m tid) with
    | none => Except.error "KeyError"
    | some inputs_seq => Except.ok (forward_rest inputs_seq)
  | PredictInputs.single t =>
    let inputs_seq := [t]
    if inputs_seq.length = input_ids.length then Except.ok (forward_rest inputs_seq)
    else Except.error "AssertionError"
  | PredictInputs.seq l =>
    if l.length = input_ids.length then Except.ok (forward_rest l)
    else Except.error "AssertionError"

/-! ## ONNX model adapter (`model_adapters/_onnx_model_adapter.py`) -/

/-- The weights section of a model description as seen by the ONNX adapter:
the optional source path of serialized ONNX weights. -/
structure OnnxWeights where
  onnx : Option String
deriving DecidableEq, Repr

/-- The slice of a model description used by the ONNX adapter. -/
structure OnnxModelDescr where
  output_axes : List (List String)
  weights : OnnxWeights
deriving DecidableEq, Repr

/-- The state owned by a constructed ONNX adapter: the output axis tags, the
session source, and the session's input names. -/
structure OnnxAdapterState where
  internal_output_axes : List (List String)
  session_source : String
  input_names : List String
deriving DecidableEq, Repr

/-- `ONNXModelAdapter.__init__`: raises `ImportError` when onnxruntime is
unavailable, `ValueError` when the description has no ONNX weights;
otherwise builds the session from the weights source (the backend's input
names for a source are abstracted as `session_inputs`).  A non-None device
list only triggers a warning and is otherwise ignored.  Returns the adapter
state together with the warnings emitted. -/
def ONNXModelAdapter_init (rt_available : Bool) (model_description : OnnxModelDescr)
    (session_inputs : String → List String) (devices : Option (List String)) :
    Except String (OnnxAdapterState × List String) :=
  if rt_available = false then Except.error "onnxruntime"
  else
    match model_description.weights.onnx with
    | none => Except.error "No ONNX weights specified"
    | some src =>
      let state : OnnxAdapterState :=
        ⟨model_description.output_axes, src, session_inputs src⟩
      let warns : List String :=
        match devices with
        | none => []
        | some _ =>
          ["Device management is not implemented for onnx yet, ignoring the devices"]
      Except.ok (state, warns)

/-- `ONNXModelAdapter.unload`: emits a warning and returns; it cannot
raise. -/
def ONNXModelAdapter_unload (_state : OnnxAdapterState) : Unit × List String :=
  ((), ["Device management is not implemented for onnx yet, cannot unload model"])

/-! ## RDF resolution inside zip packages (`io.py`) -/

/-- A loaded YAML value as far as `download_rdf` inspects it: a mapping or
something else. -/
inductive YamlValue where
  | mapping (entries : List (String × String))
  | scalar (s : String)
  | sequence (items : List String)
deriving DecidableEq, Repr

/-- A raised Python error of `download_rdf`. -/
inductive PyError where
  | valueError (msg : String)
  | typeError (msg : String)
deriving DecidableEq, Repr

/-- The legacy RDF file name. -/
def LEGACY_RDF_NAME : String := "rdf.yaml"

/-- The RDF file selection of `download_rdf` for a zip package: more than
one `*.bioimageio.yaml` member raises `ValueError`; exactly one is used;
otherwise the legacy `rdf.yaml` is used when present; else `ValueError`. -/
def selectRdfFileName (namelist : List String) : Except PyError String :=
  let rdfs := namelist.filter (fun fname => strEndsWith fname ".bioimageio.yaml")
  match rdfs with
  | _ :: _ :: _ =>
    Except.error (PyError.valueError "Multiple RDFs in one package not yet supported")
  | [rdf_file_name] => Except.ok rdf_file_name
  | [] =>
    if LEGACY_RDF_NAME ∈ namelist then Except.ok LEGACY_RDF_NAME
    else Except.error (PyError.valueError "No RDF found")

/-- `download_rdf` for a zip package source: select the RDF member of the
archive, load its YAML content (abstracted as `load`), and require the
content to be a mapping (`TypeError` otherwise). -/
def download_rdf (namelist : List String) (load : String → YamlValue) :
    Except PyError YamlValue :=
  match selectRdfFileName namelist with
  | Except.error e => Except.error e
  | Except.ok rdf_file_name =>
    match load rdf_file_name with
    | YamlValue.mapping entries => Except.ok (YamlValue.mapping entries)
    | _ => Except.error (PyError.typeError "Expected RDF content to be a mapping")

/-! ## Derived views used by the theorems -/

/-- The value `finalize` associates to a measure: the seeded value verbatim
when present, otherwise the value computed from the measure's aggregation. -/
def StatsCalculator.valueFor (c : StatsCalculator) (m : Measure) : Option Rat :=
  match alookup c.seed m with
  | some v => some v
  | none => computeMeasure (c.sampleLog m) m

/-- The declared transformation steps carried by an operator list, in
order (statistics-injection and dtype operators are not declared steps). -/
def declaredSteps (procs : List Processing) : List ProcStep :=
  procs.filterMap (fun p =>
    match p with
    | Processing.declared _ step => some step
    | _ => none)

/-- The concatenation of the model's declared preprocessing steps, in their
original declared order. -/
def modelPreSteps : ModelDescr → List ProcStep
  | ModelDescr.v0_4 inputs _ => inputs.flatMap (fun t => t.preprocessing)
  | ModelDescr.v0_5 inputs _ => inputs.flatMap (fun t => t.preprocessing)

/-- The concatenation of the model's declared postprocessing steps, in
their original declared order. -/
def modelPostSteps : ModelDescr → List ProcStep
  | ModelDescr.v0_4 _ outputs => outputs.flatMap (fun t => t.postprocessing)
  | ModelDescr.v0_5 _ outputs => outputs.flatMap (fun t => t.postprocessing)

/-! ## Helper lemmas -/

theorem alookup_append_left {α β : Type} [DecidableEq α] (l₁ l₂ : List (α × β)) (a : α)
    (b : β) (h : alookup l₁ a = some b) : alookup (l₁ ++ l₂) a = some b := by
  unfold alookup at h ⊢
  rw [List.find?_append]
  cases hf : l₁.find? (fun p => decide (p.1 = a)) with
  | none => rw [hf] at h; simp at h
  | some p => rw [hf] at h; simp [Option.orElse, hf, h]

theorem alookup_cons_self {α β : Type} [DecidableEq α] (l : List (α × β)) (a : α) (b : β) :
    alookup ((a, b) :: l) a = some b := by
  unfold alookup
  simp [List.find?_cons]

theorem alookup_cons_ne {α β : Type} [DecidableEq α] (l : List (α × β)) (a x : α) (b : β)
    (h : x ≠ a) : alookup ((x, b) :: l) a = alookup l a := by
  unfold alookup
  simp [List.find?_cons, h]

/-! ## C10: RDF resolution inside zip packages -/

/-- C10: `download_rdf` resolves the description inside a zip package
deterministically: more than one `*.bioimageio.yaml` member raises
`ValueError`; exactly one is used; otherwise the legacy `rdf.yaml` is used
when present; else `ValueError`; and when the loaded YAML content is not a
mapping, `TypeError` is raised, otherwise the content is returned. -/
theorem download_rdf_deterministic_resolution (namelist : List String)
    (load : String → YamlValue) :
    ((namelist.filter (fun f => strEndsWith f ".bioimageio.yaml")).length > 1 →
      ∃ msg, download_rdf namelist load = Except.error (PyError.valueError msg)) ∧
    (∀ r, namelist.filter (fun f => strEndsWith f ".bioimageio.yaml") = [r] →
      selectRdfFileName namelist = Except.ok r) ∧
    (namelist.filter (fun f => strEndsWith f ".bioimageio.yaml") = [] →
      LEGACY_RDF_NAME ∈ namelist →
      selectRdfFileName namelist = Except.ok LEGACY_RDF_NAME) ∧
    (namelist.filter (fun f => strEndsWith f ".bioimageio.yaml") = [] →
      LEGACY_RDF_NAME ∉ namelist →
      ∃ msg, download_rdf namelist load = Except.error (PyError.valueError msg)) ∧
    (∀ r, selectRdfFileName namelist = Except.ok r →
      ((∃ entries, load r = YamlValue.mapping entries) →
        download_rdf namelist load = Except.ok (load r)) ∧
      ((∀ entries, load r ≠ YamlValue.mapping entries) →
        ∃ msg, download_rdf namelist load = Except.error (PyError.typeError msg))) := by
  refine ⟨?_, ?_, ?_, ?_, ?_⟩
  · intro h
    unfold download_rdf selectRdfFileName
    cases hf : namelist.filter (fun f => strEndsWith f ".bioimageio.yaml") with
    | nil => rw [hf] at h; simp at h
    | cons a tl =>
      cases tl with
      | nil => rw [hf] at h; simp at h
      | cons b tl2 =>
        exact ⟨"Multiple RDFs in one package not yet supported", by simp [hf]⟩
  · intro r hf
    unfold selectRdfFileName
    simp [hf]
  · intro hf hmem
    unfold selectRdfFileName
    simp [hf, hmem]
  · intro hf hmem
    unfold download_rdf selectRdfFileName
    exact ⟨"No RDF found", by simp [hf, hmem]⟩
  · intro r hsel
    constructor
    · rintro ⟨entries, hload⟩
      unfold download_rdf
      simp [hsel, hload]
    · intro hload
      unfold download_rdf
      cases hl : load r with
      | mapping entries => exact absurd hl (hload entries)
      | scalar s =>
        exact ⟨"Expected RDF content to be a mapping", by simp [hsel, hl]⟩
      | sequence items =>
        exact ⟨"Expected RDF content to be a mapping", by simp [hsel, hl]⟩

/-- Witness for C10 at a concrete archive: a single `*.bioimageio.yaml`
member is selected and its mapping content returned. -/
theorem download_rdf_deterministic_resolution_witness :
    selectRdfFileName ["weights.onnx", "model.bioimageio.yaml"] =
        Except.ok "model.bioimageio.yaml" ∧
    download_rdf ["weights.onnx", "model.bioimageio.yaml"]
        (fun _ => YamlValue.mapping [("name", "m")]) =
      Except.ok (YamlValue.mapping [("name", "m")]) := by
  have h := download_rdf_deterministic_resolution ["weights.onnx", "model.bioimageio.yaml"]
    (fun _ => YamlValue.mapping [("name", "m")])
  have hsel := h.2.1 "model.bioimageio.yaml" (by decide)
  exact ⟨hsel, (h.2.2.2.2 "model.bioimageio.yaml" hsel).1 ⟨[("name", "m")], rfl⟩⟩

/-! ## C9: input normalization of `predict` -/

/-- C9: when `inputs` is a sequence, `predict` proceeds exactly when the
sequence's length equals the number of the pipeline's declared input ids
(the assertion fails otherwise), and a bare tensor argument is first
wrapped as a one-element sequence and then subjected to this same check. -/
theorem predict_length_assertion {T R : Type} (input_ids : List String) (l : List T)
    (t : T) (forward_rest : List T → R) :
    ((∃ r, predict input_ids (PredictInputs.seq l) forward_rest = Except.ok r) ↔
      l.length = input_ids.length) ∧
    (l.length ≠ input_ids.length →
      predict input_ids (PredictInputs.seq l) forward_rest =
        Except.error "AssertionError") ∧
    (predict input_ids (PredictInputs.single t) forward_rest =
      predict input_ids (PredictInputs.seq [t]) forward_rest) := by
  refine ⟨?_, ?_, ?_⟩
  · constructor
    · rintro ⟨r, hr⟩
      by_contra hne
      unfold predict at hr
      simp [hne] at hr
    · intro h
      exact ⟨forward_rest l, by unfold predict; simp [h]⟩
  · intro hne
    unfold predict
    simp [hne]
  · rfl

/-- Witness for C9: a two-element sequence against a two-input pipeline
passes the assertion; against a one-input pipeline it fails. -/
theorem predict_length_assertion_witness :
    predict ["a", "b"] (PredictInputs.seq [0, 1]) (fun (l : List Nat) => l) =
        Except.ok [0, 1] ∧
    predict ["a"] (PredictInputs.seq [0, 1]) (fun (l : List Nat) => l) =
        Except.error "AssertionError" ∧
    predict ["a"] (PredictInputs.single 5) (fun (l : List Nat) => l) = Except.ok [5] := by
  refine ⟨rfl, ?_, rfl⟩
  exact (predict_length_assertion ["a"] [0, 1] 5 (fun l => l)).2.1 (by decide)

/-! ## C8: ONNX adapter degrades unsupported capabilities to warnings -/

/-- C8: constructing the ONNX adapter with any non-None device list only
emits a warning — the adapter state built is exactly the state built
without a device list (the default device) — and `unload` emits a warning
and returns without raising; neither fails the construction. -/
theorem onnx_unsupported_capability_warns (model_description : OnnxModelDescr)
    (session_inputs : String → List String) (ds : List String) (src : String)
    (hw : model_description.weights.onnx = some src) :
    (∃ state,
      ONNXModelAdapter_init true model_description session_inputs (some ds) =
        Except.ok (state,
          ["Device management is not implemented for onnx yet, ignoring the devices"]) ∧
      ONNXModelAdapter_init true model_description session_inputs none =
        Except.ok (state, [])) ∧
    (∀ state, ONNXModelAdapter_unload state =
      ((), ["Device management is not implemented for onnx yet, cannot unload model"])) := by
  constructor
  · refine ⟨⟨model_description.output_axes, src, session_inputs src⟩, ?_, ?_⟩ <;>
      · unfold ONNXModelAdapter_init
        simp [hw]
  · intro state
    rfl

/-- Witness for C8 at a concrete model description with ONNX weights and a
requested device list. -/
theorem onnx_unsupported_capability_warns_witness :
    ONNXModelAdapter_init true ⟨[["b", "c"]], ⟨some "weights.onnx"⟩⟩ (fun _ => ["input0"])
        (some ["cuda:0"]) =
      Except.ok (⟨[["b", "c"]], "weights.onnx", ["input0"]⟩,
        ["Device management is not implemented for onnx yet, ignoring the devices"]) := by
  have h := onnx_unsupported_capability_warns ⟨[["b", "c"]], ⟨some "weights.onnx"⟩⟩
    (fun _ => ["input0"]) ["cuda:0"] "weights.onnx" rfl
  obtain ⟨state, h1, h2⟩ := h.1
  have : state = ⟨[["b", "c"]], "weights.onnx", ["input0"]⟩ := by
    have := h2
    unfold ONNXModelAdapter_init at this
    simp at this
    exact this.symm
  rw [this] at h1
  exact h1

/-! ## C1: the testing entry point never propagates exceptions -/

/-- C1: `test_description` always completes and returns a validation
summary: the prior details plus exactly one new detail for the inference
test.  Any exception raised while loading the test tensors or while
constructing the pipeline and running forward is caught and recorded in
that detail — status "failed", with the exception's message and formatted
traceback in the error entry — instead of propagating. -/
theorem test_description_never_propagates (prior_details : List ValidationDetail)
    (load_test_tensors : Except PyExn (List Tensor × List Tensor))
    (pipeline_forward : List Tensor → Except PyExn (List Tensor))
    (compare : Tensor → Tensor → Option String) (weight_format : Option String) :
    ∃ detail,
      test_description prior_details load_test_tensors pipeline_forward compare
          weight_format = prior_details ++ [detail] ∧
      detail.name = "Reproduce test outputs from test inputs" ∧
      (detail.status = "passed" ∨ detail.status = "failed") ∧
      (∀ e, load_test_tensors = Except.error e →
        detail.status = "failed" ∧
        detail.errors = [⟨errLoc weight_format, e.msg, "bioimageio.core", e.traceback⟩]) ∧
      (∀ inputs expected e, load_test_tensors = Except.ok (inputs, expected) →
        pipeline_forward inputs = Except.error e →
        detail.status = "failed" ∧
        detail.errors = [⟨errLoc weight_format, e.msg, "bioimageio.core", e.traceback⟩]) := by
  refine ⟨(_test_model_inference load_test_tensors pipeline_forward compare
    weight_format).1, rfl, rfl, ?_, ?_, ?_⟩
  · unfold _test_model_inference
    cases load_test_tensors with
    | error e => simp
    | ok p =>
      cases hf : pipeline_forward p.1 with
      | error e => simp [hf]
      | ok results =>
        by_cases hlen : results.length = p.2.length
        · simp only [hf]
          by_cases hcmp :
              accumulateCompareErrors compare (results.zip p.2) none = none <;>
            simp [hlen, hcmp]
        · simp [hf, hlen]
  · intro e he
    subst he
    unfold _test_model_inference
    simp
  · intro inputs expected e hl hf
    subst hl
    unfold _test_model_inference
    simp [hf]

/-- Witness for C1: a pipeline that raises is recorded as a failed detail
with the exception's message and traceback, and the summary is returned. -/
theorem test_description_never_propagates_witness :
    test_description [] (Except.ok ([], []))
        (fun _ => Except.error ⟨"boom", ["tb line"]⟩) (fun _ _ => none) none =
      [⟨"Reproduce test outputs from test inputs", "failed",
        [⟨["weights"], "boom", "bioimageio.core", ["tb line"]⟩]⟩] := by
  obtain ⟨detail, heq, hname, _, _, hfwd⟩ := test_description_never_propagates []
    (Except.ok ([], [])) (fun _ => Except.error ⟨"boom", ["tb line"]⟩)
    (fun _ _ => none) none
  obtain ⟨hstatus, herrs⟩ := hfwd [] [] ⟨"boom", ["tb line"]⟩ rfl rfl
  rw [heq]
  cases detail
  simp only at hname hstatus herrs
  simp [hname, hstatus, herrs, errLoc]

/-! ## C6: output-count mismatch is reported, not raised -/

/-- C6: when the pipeline returns a number of outputs different from the
number of expected test outputs, `_test_model_inference` records a failed
detail with the message `Expected {n} outputs, but got {m}`, performs no
per-output comparison (the compared-pairs log is empty), and returns the
detail instead of raising. -/
theorem output_count_mismatch_reported
    (load_test_tensors : Except PyExn (List Tensor × List Tensor))
    (pipeline_forward : List Tensor → Except PyExn (List Tensor))
    (compare : Tensor → Tensor → Option String) (weight_format : Option String)
    (inputs expected results : List Tensor)
    (hl : load_test_tensors = Except.ok (inputs, expected))
    (hf : pipeline_forward inputs = Except.ok results)
    (hne : results.length ≠ expected.length) :
    _test_model_inference load_test_tensors pipeline_forward compare weight_format =
      (⟨"Reproduce test outputs from test inputs", "failed",
        [⟨errLoc weight_format,
          "Expected " ++ toString expected.length ++ " outputs, but got " ++
            toString results.length, "bioimageio.core", []⟩]⟩, []) := by
  subst hl
  unfold _test_model_inference
  simp [hf, hne]

/-- Witness for C6: two expected outputs but a single returned output
produce the failed detail with the exact message and no comparisons. -/
theorem output_count_mismatch_reported_witness :
    _test_model_inference
        (Except.ok ([], [⟨[], [], []⟩, ⟨[], [], []⟩]))
        (fun _ => Except.ok [⟨[], [], []⟩]) (fun _ _ => none) (some "onnx") =
      (⟨"Reproduce test outputs from test inputs", "failed",
        [⟨["weights", "onnx"], "Expected 2 outputs, but got 1",
          "bioimageio.core", []⟩]⟩, []) := by
  have h := output_count_mismatch_reported
    (Except.ok ([], [⟨[], [], []⟩, ⟨[], [], []⟩]))
    (fun _ => Except.ok [⟨[], [], []⟩]) (fun _ _ => none) (some "onnx")
    [] [⟨[], [], []⟩, ⟨[], [], []⟩] [⟨[], [], []⟩] rfl rfl (by decide)
  exact h

/-! ## C2: statistics-injection operators at the head of each direction -/

theorem declaredSteps_append (l₁ l₂ : List Processing) :
    declaredSteps (l₁ ++ l₂) = declaredSteps l₁ ++ declaredSteps l₂ :=
  List.filterMap_append l₁ l₂ _

theorem declaredSteps_map_declared (mid : String) (steps : List ProcStep) :
    declaredSteps (steps.map (fun st => Processing.declared mid st)) = steps := by
  induction steps with
  | nil => rfl
  | cons st rest ih => simpa [declaredSteps] using ih

theorem declaredSteps_prepare_v4_pre (ts : List InputTensorDescrV4) :
    declaredSteps (_prepare_v4_preprocs ts).1 = ts.flatMap (fun t => t.preprocessing) := by
  induction ts with
  | nil => rfl
  | cons t rest ih =>
    simp only [_prepare_v4_preprocs, List.flatMap_cons] at ih ⊢
    rw [declaredSteps_append]
    rw [ih]
    congr 1
    simpa [declaredSteps, preproc_v4_to_processing] using
      declaredSteps_map_declared t.name t.preprocessing

theorem declaredSteps_prepare_v4_post (ts : List OutputTensorDescrV4) :
    declaredSteps (_prepare_v4_postprocs ts).1 = ts.flatMap (fun t => t.postprocessing) := by
  induction ts with
  | nil => rfl
  | cons t rest ih =>
    simp only [_prepare_v4_postprocs, List.flatMap_cons] at ih ⊢
    rw [declaredSteps_append]
    rw [ih]
    congr 1
    simpa [declaredSteps, postproc_v4_to_processing] using
      declaredSteps_map_declared t.name t.postprocessing

theorem declaredSteps_prepare_v5_pre (ts : List InputTensorDescrV5) :
    declaredSteps (_prepare_v5_preprocs ts).1 = ts.flatMap (fun t => t.preprocessing) := by
  induction ts with
  | nil => rfl
  | cons t rest ih =>
    simp only [_prepare_v5_preprocs, List.flatMap_cons] at ih ⊢
    rw [declaredSteps_append]
    rw [ih]
    congr 1
    simpa [preproc_v5_to_processing] using
      declaredSteps_map_declared t.id t.preprocessing

theorem declaredSteps_prepare_v5_post (ts : List OutputTensorDescrV5) :
    declaredSteps (_prepare_v5_postprocs ts).1 = ts.flatMap (fun t => t.postprocessing) := by
  induction ts with
  | nil => rfl
  | cons t rest ih =>
    simp only [_prepare_v5_postprocs, List.flatMap_cons] at ih ⊢
    rw [declaredSteps_append]
    rw [ih]
    congr 1
    simpa [postproc_v5_to_processing] using
      declaredSteps_map_declared t.id t.postprocessing

theorem declaredSteps_prepare_pre (model : ModelDescr) :
    declaredSteps (_prepare_setup_pre_and_postprocessing model).pre = modelPreSteps model := by
  cases model with
  | v0_4 inputs outputs =>
    simpa [_prepare_setup_pre_and_postprocessing, modelPreSteps] using
      declaredSteps_prepare_v4_pre inputs
  | v0_5 inputs outputs =>
    simpa [_prepare_setup_pre_and_postprocessing, modelPreSteps] using
      declaredSteps_prepare_v5_pre inputs

theorem declaredSteps_prepare_post (model : ModelDescr) :
    declaredSteps (_prepare_setup_pre_and_postprocessing model).post = modelPostSteps model := by
  cases model with
  | v0_4 inputs outputs =>
    simpa [_prepare_setup_pre_and_postprocessing, modelPostSteps] using
      declaredSteps_prepare_v4_post outputs
  | v0_5 inputs outputs =>
    simpa [_prepare_setup_pre_and_postprocessing, modelPostSteps] using
      declaredSteps_prepare_v5_post outputs

/-- C2 counterexample: for a v0.5 model whose single output declares no
postprocessing, the post direction requires no measures and
`setup_pre_and_postprocessing` inserts NO `UpdateStats` operator into the
post list (the list stays empty), contradicting the claim that an
`UpdateStats` operator is inserted at the head of each direction's list. -/
theorem updatestats_each_direction_counterexample :
    (setup_pre_and_postprocessing
        (ModelDescr.v0_5 [] [⟨"out", [⟨"x", AxisSizeV5.fixed 4⟩], []⟩]) [] false
        none).post = [] ∧
    ∀ c k rest,
      (setup_pre_and_postprocessing
          (ModelDescr.v0_5 [] [⟨"out", [⟨"x", AxisSizeV5.fixed 4⟩], []⟩]) [] false
          none).post ≠ Processing.updateStats c k :: rest := by
  have hpost : (setup_pre_and_postprocessing
      (ModelDescr.v0_5 [] [⟨"out", [⟨"x", AxisSizeV5.fixed 4⟩], []⟩]) [] false
      none).post = [] := rfl
  refine ⟨hpost, ?_⟩
  intro c k rest h
  rw [hpost] at h
  exact List.noConfusion h

/-- C2 amended: `setup_pre_and_postprocessing` inserts an `UpdateStats`
operator — parameterized by a StatsCalculator pre-populated with the
finalized initial statistics and the online-update flag — at the head of
the pre list always, and at the head of the post list exactly when the post
direction requires at least one measure; in both directions the remainder
of the list carries the declared transformation operators in their original
declared order. -/
theorem updatestats_insertion_amended (model : ModelDescr) (dataset : List Sample)
    (keep : Bool) :
    (setup_pre_and_postprocessing model dataset keep none).pre =
      Processing.updateStats
        ⟨(_prepare_setup_pre_and_postprocessing model).pre_measures,
          initialStats model dataset none, []⟩ keep ::
        (_prepare_setup_pre_and_postprocessing model).pre ∧
    ((_prepare_setup_pre_and_postprocessing model).post_measures ≠ [] →
      (setup_pre_and_postprocessing model dataset keep none).post =
        Processing.updateStats
          ⟨(_prepare_setup_pre_and_postprocessing model).post_measures,
            initialStats model dataset none, []⟩ keep ::
          (_prepare_setup_pre_and_postprocessing model).post) ∧
    ((_prepare_setup_pre_and_postprocessing model).post_measures = [] →
      (setup_pre_and_postprocessing model dataset keep none).post =
        (_prepare_setup_pre_and_postprocessing model).post) ∧
    declaredSteps (setup_pre_and_postprocessing model dataset keep none).pre =
      modelPreSteps model ∧
    declaredSteps (setup_pre_and_postprocessing model dataset keep none).post =
      modelPostSteps model := by
  have hpre : (setup_pre_and_postprocessing model dataset keep none).pre =
      Processing.updateStats
        ⟨(_prepare_setup_pre_and_postprocessing model).pre_measures,
          initialStats model dataset none, []⟩ keep ::
        (_prepare_setup_pre_and_postprocessing model).pre := by
    unfold setup_pre_and_postprocessing
    rfl
  refine ⟨hpre, ?_, ?_, ?_, ?_⟩
  · intro hne
    unfold setup_pre_and_postprocessing
    simp [hne]
  · intro hempty
    unfold setup_pre_and_postprocessing
    simp [hempty]
  · rw [hpre]
    simpa [declaredSteps] using declaredSteps_prepare_pre model
  · by_cases hpm : (_prepare_setup_pre_and_postprocessing model).post_measures = []
    · have h : (setup_pre_and_postprocessing model dataset keep none).post =
          (_prepare_setup_pre_and_postprocessing model).post := by
        unfold setup_pre_and_postprocessing
        simp [hpm]
      rw [h]
      exact declaredSteps_prepare_post model
    · have h : (setup_pre_and_postprocessing model dataset keep none).post =
          Processing.updateStats
            ⟨(_prepare_setup_pre_and_postprocessing model).post_measures,
              initialStats model dataset none, []⟩ keep ::
            (_prepare_setup_pre_and_postprocessing model).post := by
        unfold setup_pre_and_postprocessing
        simp [hpm]
      rw [h]
      simpa [declaredSteps] using declaredSteps_prepare_post model

/-- Witness for C2 (amended) at a concrete v0.5 model whose output declares
one postprocessing step requiring a dataset mean: both directions start
with `UpdateStats` followed by the declared steps in order. -/
theorem updatestats_insertion_amended_witness :
    (setup_pre_and_postprocessing
        (ModelDescr.v0_5
          [⟨"raw", [⟨"x", AxisSizeV5.parameterized 16 8⟩],
            [⟨"zero_mean_unit_variance",
              [⟨MeasureScope.dataset, "raw", none, StatKind.mean⟩]⟩]⟩]
          [⟨"out", [⟨"x", AxisSizeV5.fixed 4⟩],
            [⟨"scale_range", [⟨MeasureScope.dataset, "out", none, StatKind.mean⟩]⟩]⟩])
        [] false none).post =
      Processing.updateStats
        ⟨[⟨MeasureScope.dataset, "out", none, StatKind.mean⟩], [], []⟩ false ::
        [Processing.declared "out"
          ⟨"scale_range", [⟨MeasureScope.dataset, "out", none, StatKind.mean⟩]⟩] := by
  have h := updatestats_insertion_amended
    (ModelDescr.v0_5
      [⟨"raw", [⟨"x", AxisSizeV5.parameterized 16 8⟩],
        [⟨"zero_mean_unit_variance",
          [⟨MeasureScope.dataset, "raw", none, StatKind.mean⟩]⟩]⟩]
      [⟨"out", [⟨"x", AxisSizeV5.fixed 4⟩],
        [⟨"scale_range", [⟨MeasureScope.dataset, "out", none, StatKind.mean⟩]⟩]⟩])
    [] false
  have hpost := h.2.1 (by decide)
  rw [hpost]
  decide

/-! ## C4: dtype normalization for tensors declaring zero processing steps -/

/-- C4 counterexample: a v0.5 input tensor declaring zero preprocessing
steps contributes no operator at all — the assembled operator list is empty
and in particular contains no `EnsureDtype` operator, contradicting the
claim for v0.5 tensor descriptions. -/
theorem ensure_dtype_counterexample :
    (_prepare_v5_preprocs [⟨"raw", [⟨"x", AxisSizeV5.fixed 8⟩], []⟩]).1 = [] ∧
    ¬ 1 ≤ (_prepare_v5_preprocs [⟨"raw", [⟨"x", AxisSizeV5.fixed 8⟩], []⟩]).1.length ∧
    (_prepare_v5_postprocs [⟨"out", [⟨"x", AxisSizeV5.fixed 8⟩], []⟩]).1 = [] := by
  exact ⟨rfl, by decide, rfl⟩

theorem length_le_flatMap_cons {α β : Type} (ts : List α) (g : α → β) (f : α → List β) :
    ts.length ≤ (ts.flatMap (fun t => g t :: f t)).length := by
  induction ts with
  | nil => simp
  | cons t rest ih =>
    simp only [List.flatMap_cons, List.length_append, List.length_cons]
    omega

/-- C4 amended: the claim holds for the legacy v0.4 encodings: every v0.4
input/output tensor description — even one declaring zero processing
steps — receives an `EnsureDtype` operator in the assembled list, so the
assembled list has at least one operator per tensor.  (v0.5 tensors with
zero declared steps contribute no operators, see the counterexample.) -/
theorem ensure_dtype_v4_amended (ts_in : List InputTensorDescrV4)
    (ts_out : List OutputTensorDescrV4) :
    (∀ t ∈ ts_in,
      Processing.ensureDtype t.name t.name t.data_type ∈ (_prepare_v4_preprocs ts_in).1) ∧
    (∀ t ∈ ts_out,
      Processing.ensureDtype t.name t.name t.data_type ∈ (_prepare_v4_postprocs ts_out).1) ∧
    ts_in.length ≤ (_prepare_v4_preprocs ts_in).1.length ∧
    ts_out.length ≤ (_prepare_v4_postprocs ts_out).1.length := by
  refine ⟨?_, ?_, ?_, ?_⟩
  · intro t ht
    simp only [_prepare_v4_preprocs, List.mem_flatMap]
    exact ⟨t, ht, List.mem_cons_self _ _⟩
  · intro t ht
    simp only [_prepare_v4_postprocs, List.mem_flatMap]
    exact ⟨t, ht, List.mem_cons_self _ _⟩
  · simpa [_prepare_v4_preprocs] using
      length_le_flatMap_cons ts_in
        (fun t => Processing.ensureDtype t.name t.name t.data_type)
        (fun t => t.preprocessing.map (fun proc_d => preproc_v4_to_processing t proc_d))
  · simpa [_prepare_v4_postprocs] using
      length_le_flatMap_cons ts_out
        (fun t => Processing.ensureDtype t.name t.name t.data_type)
        (fun t => t.postprocessing.map (fun proc_d => postproc_v4_to_processing t proc_d))

/-- Witness for C4 (amended) at a concrete v0.4 tensor with zero declared
steps: the assembled list still holds its `EnsureDtype` operator. -/
theorem ensure_dtype_v4_amended_witness :
    Processing.ensureDtype "raw" "raw" "float32" ∈
        (_prepare_v4_preprocs [⟨"raw", "float32", []⟩]).1 ∧
    1 ≤ (_prepare_v4_preprocs [⟨"raw", "float32", []⟩]).1.length := by
  have h := ensure_dtype_v4_amended [⟨"raw", "float32", []⟩] []
  exact ⟨h.1 ⟨"raw", "float32", []⟩ (by decide), h.2.2.1⟩

/-! ## C3: a measure required by both directions is computed once and shared -/

theorem finalize_eq_filterMap (c : StatsCalculator) :
    c.finalize = c.required_measures.filterMap
      (fun m => (c.valueFor m).map (fun v => (m, v))) := by
  unfold StatsCalculator.finalize StatsCalculator.valueFor
  congr 1
  funext m
  cases alookup c.seed m <;> simp

theorem alookup_filterMap_pair {α β : Type} [DecidableEq α] (l : List α) (f : α → Option β)
    (a : α) (b : β) (ha : a ∈ l) (hf : f a = some b) :
    alookup (l.filterMap (fun x => (f x).map (fun y => (x, y)))) a = some b := by
  induction l with
  | nil => cases ha
  | cons x xs ih =>
    by_cases hxa : x = a
    · subst hxa
      simp [List.filterMap_cons, hf, alookup_cons_self]
    · have ha2 : a ∈ xs := by
        rcases List.mem_cons.mp ha with h1 | h2
        · exact absurd h1.symm hxa
        · exact h2
      cases hfx : f x with
      | none => simpa [List.filterMap_cons, hfx] using ih ha2
      | some y =>
        simpa [List.filterMap_cons, hfx, alookup_cons_ne _ a x y hxa] using ih ha2

theorem mem_keys_filterMap_pair {α β : Type} (l : List α) (f : α → Option β) (a : α)
    (h : a ∈ (l.filterMap (fun x => (f x).map (fun y => (x, y)))).map Prod.fst) :
    a ∈ l := by
  simp only [List.mem_map, List.mem_filterMap] at h
  obtain ⟨p, ⟨x, hx, hfx⟩, hp⟩ := h
  rcases Option.map_eq_some'.mp hfx with ⟨y, hy, hxy⟩
  subst hp
  rw [← hxy]
  exact hx

theorem count_key_filterMap_pair {α β : Type} [DecidableEq α] (l : List α)
    (f : α → Option β) (a : α) (hnodup : l.Nodup) (ha : a ∈ l) (hf : (f a).isSome) :
    ((l.filterMap (fun x => (f x).map (fun y => (x, y)))).map Prod.fst).count a = 1 := by
  induction l with
  | nil => cases ha
  | cons x xs ih =>
    have hx_nin : x ∉ xs := (List.nodup_cons.mp hnodup).1
    have hnd : xs.Nodup := (List.nodup_cons.mp hnodup).2
    by_cases hxa : x = a
    · subst hxa
      cases hfx : f x with
      | none => rw [hfx] at hf; simp at hf
      | some y =>
        have hrest : x ∉
            (xs.filterMap (fun z => (f z).map (fun y => (z, y)))).map Prod.fst :=
          fun hmem => hx_nin (mem_keys_filterMap_pair xs f x hmem)
        simp [List.filterMap_cons, hfx, List.count_cons,
          List.count_eq_zero.mpr hrest]
    · have ha2 : a ∈ xs := by
        rcases List.mem_cons.mp ha with h1 | h2
        · exact absurd h1.symm hxa
        · exact h2
      cases hfx : f x with
      | none => simpa [List.filterMap_cons, hfx] using ih hnd ha2
      | some y =>
        simpa [List.filterMap_cons, hfx, List.count_cons, hxa] using ih hnd ha2

theorem foldl_update_required (dataset : List Sample) (c : StatsCalculator) :
    (dataset.foldl StatsCalculator.update c).required_measures = c.required_measures ∧
    (dataset.foldl StatsCalculator.update c).seed = c.seed := by
  induction dataset generalizing c with
  | nil => exact ⟨rfl, rfl⟩
  | cons s rest ih =>
    have h := ih (StatsCalculator.update c s)
    simpa [StatsCalculator.update] using h

theorem missingDatasetStats_none (model : ModelDescr) :
    missingDatasetStats model none =
      ((_prepare_setup_pre_and_postprocessing model).pre_measures ++
        (_prepare_setup_pre_and_postprocessing model).post_measures).dedup := by
  unfold missingDatasetStats notFixed
  simp

/-- C3: a Measure required (with identical structural identity) by both the
pre- and the post-processing direction is computed exactly once during the
initial dataset-statistics pass — the finalized initial statistics contain
exactly one entry for it — and the `UpdateStats` calculators at the heads
of both directions are seeded with the very same finalized mapping, so both
see that single resulting value. -/
theorem shared_measure_computed_once (model : ModelDescr) (dataset : List Sample)
    (keep : Bool) (m : Measure) (v : Rat)
    (hpre : m ∈ (_prepare_setup_pre_and_postprocessing model).pre_measures)
    (hpost : m ∈ (_prepare_setup_pre_and_postprocessing model).post_measures)
    (hval : computeMeasure
      ((initialStatsCalc (missingDatasetStats model none) dataset).sampleLog m) m =
        some v) :
    ∃ c₁ c₂,
      (setup_pre_and_postprocessing model dataset keep none).pre.head? =
        some (Processing.updateStats c₁ keep) ∧
      (setup_pre_and_postprocessing model dataset keep none).post.head? =
        some (Processing.updateStats c₂ keep) ∧
      c₁.seed = c₂.seed ∧
      c₁.seed = initialStats model dataset none ∧
      alookup c₁.seed m = some v ∧
      alookup c₂.seed m = some v ∧
      ((initialStats model dataset none).map Prod.fst).count m = 1 := by
  have hmem : m ∈ missingDatasetStats model none := by
    rw [missingDatasetStats_none]
    exact List.mem_dedup.mpr (List.mem_append.mpr (Or.inl hpre))
  have hnodup : (missingDatasetStats model none).Nodup := by
    rw [missingDatasetStats_none]
    exact List.nodup_dedup _
  have hne : missingDatasetStats model none ≠ [] :=
    fun h => by rw [h] at hmem; cases hmem
  have hstats : initialStats model dataset none =
      (initialStatsCalc (missingDatasetStats model none) dataset).finalize := by
    unfold initialStats
    simp [hne]
  have hcalc := foldl_update_required dataset ⟨missingDatasetStats model none, [], []⟩
  have hreq : (initialStatsCalc (missingDatasetStats model none) dataset).required_measures =
      missingDatasetStats model none := hcalc.1
  have hseed : (initialStatsCalc (missingDatasetStats model none) dataset).seed = [] :=
    hcalc.2
  have hvalue : (initialStatsCalc (missingDatasetStats model none) dataset).valueFor m =
      some v := by
    unfold StatsCalculator.valueFor
    rw [hseed]
    simpa using hval
  have hlookup : alookup (initialStats model dataset none) m = some v := by
    rw [hstats, finalize_eq_filterMap, hreq]
    exact alookup_filterMap_pair _ _ m v hmem hvalue
  have hcount : ((initialStats model dataset none).map Prod.fst).count m = 1 := by
    rw [hstats, finalize_eq_filterMap, hreq]
    exact count_key_filterMap_pair _ _ m hnodup hmem (by rw [hvalue]; rfl)
  have hpostne : (_prepare_setup_pre_and_postprocessing model).post_measures ≠ [] :=
    fun h => by rw [h] at hpost; cases hpost
  refine ⟨⟨(_prepare_setup_pre_and_postprocessing model).pre_measures,
      initialStats model dataset none, []⟩,
    ⟨(_prepare_setup_pre_and_postprocessing model).post_measures,
      initialStats model dataset none, []⟩, ?_, ?_, rfl, rfl, hlookup, hlookup, hcount⟩
  · unfold setup_pre_and_postprocessing
    rfl
  · unfold setup_pre_and_postprocessing
    simp [hpostne]

/-- Witness for C3: the dataset minimum of tensor `raw`, required by one
preprocessing and one postprocessing step, is computed once from a
three-value sample (minimum 1) and seeded identically into both
directions. -/
theorem shared_measure_computed_once_witness :
    ∃ c₁ c₂,
      (setup_pre_and_postprocessing
          (ModelDescr.v0_5
            [⟨"raw", [⟨"x", AxisSizeV5.fixed 3⟩],
              [⟨"zero_mean_unit_variance",
                [⟨MeasureScope.dataset, "raw", none, StatKind.minimum⟩]⟩]⟩]
            [⟨"out", [⟨"x", AxisSizeV5.fixed 3⟩],
              [⟨"scale_range",
                [⟨MeasureScope.dataset, "raw", none, StatKind.minimum⟩]⟩]⟩])
          [⟨[("raw", ⟨["x"], [3], [3, 1, 2]⟩)]⟩] false none).pre.head? =
        some (Processing.updateStats c₁ false) ∧
      (setup_pre_and_postprocessing
          (ModelDescr.v0_5
            [⟨"raw", [⟨"x", AxisSizeV5.fixed 3⟩],
              [⟨"zero_mean_unit_variance",
                [⟨MeasureScope.dataset, "raw", none, StatKind.minimum⟩]⟩]⟩]
            [⟨"out", [⟨"x", AxisSizeV5.fixed 3⟩],
              [⟨"scale_range",
                [⟨MeasureScope.dataset, "raw", none, StatKind.minimum⟩]⟩]⟩])
          [⟨[("raw", ⟨["x"], [3], [3, 1, 2]⟩)]⟩] false none).post.head? =
        some (Processing.updateStats c₂ false) ∧
      c₁.seed = c₂.seed ∧
      alookup c₁.seed ⟨MeasureScope.dataset, "raw", none, StatKind.minimum⟩ = some 1 ∧
      alookup c₂.seed ⟨MeasureScope.dataset, "raw", none, StatKind.minimum⟩ = some 1 := by
  obtain ⟨c₁, c₂, h1, h2, h3, _, h5, h6, _⟩ := shared_measure_computed_once
    (ModelDescr.v0_5
      [⟨"raw", [⟨"x", AxisSizeV5.fixed 3⟩],
        [⟨"zero_mean_unit_variance",
          [⟨MeasureScope.dataset, "raw", none, StatKind.minimum⟩]⟩]⟩]
      [⟨"out", [⟨"x", AxisSizeV5.fixed 3⟩],
        [⟨"scale_range",
          [⟨MeasureScope.dataset, "raw", none, StatKind.minimum⟩]⟩]⟩])
    [⟨[("raw", ⟨["x"], [3], [3, 1, 2]⟩)]⟩] false
    ⟨MeasureScope.dataset, "raw", none, StatKind.minimum⟩ 1 (by decide) (by decide)
    (by decide)
  exact ⟨c₁, c₂, h1, h2, h3, h5, h6⟩

/-! ## C5: fixed dataset statistics override aggregation -/

theorem foldl_update_agg_keys (dataset : List Sample) (c : StatsCalculator)
    (h0 : ∀ p ∈ c.agg, p.1 ∈ c.required_measures) :
    ∀ p ∈ (dataset.foldl StatsCalculator.update c).agg,
      p.1 ∈ c.required_measures := by
  induction dataset generalizing c with
  | nil => exact h0
  | cons s rest ih =>
    intro p hp
    have hstep : ∀ q ∈ (StatsCalculator.update c s).agg, q.1 ∈ c.required_measures := by
      intro q hq
      simp only [StatsCalculator.update, List.mem_append] at hq
      rcases hq with hq | hq
      · exact h0 q hq
      · rcases List.mem_map.mp hq with ⟨m, hm, hmq⟩
        rw [← hmq]
        exact List.mem_of_mem_filter hm
    exact ih (StatsCalculator.update c s) hstep p hp

/-- C5: for a Measure with a caller-supplied fixed value,
(1) no sample of `dataset_for_initial_statistics` is ever folded into that
measure's aggregation — it is excluded from the initial calculator's
required set, so its aggregation log stays empty;
(2) both returned operator lists start with an `AddKnownDatasetStats`
operator carrying exactly the fixed stats, whose application injects
exactly the supplied fixed value into the stats scope for downstream
operators; and
(3) any StatsCalculator seeded with the fixed value returns it verbatim on
finalize. -/
theorem fixed_stats_override (model : ModelDescr) (dataset : List Sample) (keep : Bool)
    (f : List (Measure × Rat)) (m : Measure) (v : Rat)
    (hm : alookup f m = some v) :
    (∀ p ∈ (initialStatsCalc (missingDatasetStats model (some f)) dataset).agg,
      p.1 ≠ m) ∧
    ((setup_pre_and_postprocessing model dataset keep (some f)).pre.head? =
      some (Processing.addKnownDatasetStats f)) ∧
    ((setup_pre_and_postprocessing model dataset keep (some f)).post.head? =
      some (Processing.addKnownDatasetStats f)) ∧
    (∀ scope,
      alookup (applyToScope (Processing.addKnownDatasetStats f) scope) m = some v) ∧
    (∀ c : StatsCalculator, m ∈ c.required_measures → alookup c.seed m = some v →
      alookup c.finalize m = some v) := by
  have hf_ne : f ≠ [] := by
    intro h
    rw [h] at hm
    simp [alookup] at hm
  have hm_not_missing : m ∉ missingDatasetStats model (some f) := by
    intro hmem
    unfold missingDatasetStats at hmem
    have := List.of_mem_filter hmem
    rw [notFixed] at this
    rw [hm] at this
    simp at this
  refine ⟨?_, ?_, ?_, ?_, ?_⟩
  · intro p hp hpm
    have hkeys := foldl_update_agg_keys dataset
      ⟨missingDatasetStats model (some f), [], []⟩ (by intro q hq; cases hq) p hp
    rw [hpm] at hkeys
    exact hm_not_missing hkeys
  · unfold setup_pre_and_postprocessing
    simp [hf_ne]
  · unfold setup_pre_and_postprocessing
    simp [hf_ne]
  · intro scope
    unfold applyToScope
    exact alookup_append_left f scope m v hm
  · intro c hreq hseed
    rw [finalize_eq_filterMap]
    refine alookup_filterMap_pair _ _ m v hreq ?_
    unfold StatsCalculator.valueFor
    rw [hseed]

/-- Witness for C5: a fixed dataset mean for tensor `raw` is never folded
(empty aggregation log), is injected at the head of both operator lists,
and is returned verbatim by a calculator seeded with it. -/
theorem fixed_stats_override_witness :
    (∀ p ∈ (initialStatsCalc
        (missingDatasetStats
          (ModelDescr.v0_5
            [⟨"raw", [⟨"x", AxisSizeV5.fixed 3⟩],
              [⟨"zero_mean_unit_variance",
                [⟨MeasureScope.dataset, "raw", none, StatKind.mean⟩]⟩]⟩] [])
          (some [(⟨MeasureScope.dataset, "raw", none, StatKind.mean⟩, 5)]))
        [⟨[("raw", ⟨["x"], [3], [3, 1, 2]⟩)]⟩]).agg,
      p.1 ≠ ⟨MeasureScope.dataset, "raw", none, StatKind.mean⟩) ∧
    (setup_pre_and_postprocessing
        (ModelDescr.v0_5
          [⟨"raw", [⟨"x", AxisSizeV5.fixed 3⟩],
            [⟨"zero_mean_unit_variance",
              [⟨MeasureScope.dataset, "raw", none, StatKind.mean⟩]⟩]⟩] [])
        [⟨[("raw", ⟨["x"], [3], [3, 1, 2]⟩)]⟩] false
        (some [(⟨MeasureScope.dataset, "raw", none, StatKind.mean⟩, 5)])).pre.head? =
      some (Processing.addKnownDatasetStats
        [(⟨MeasureScope.dataset, "raw", none, StatKind.mean⟩, 5)]) ∧
    alookup (applyToScope
        (Processing.addKnownDatasetStats
          [(⟨MeasureScope.dataset, "raw", none, StatKind.mean⟩, 5)]) [])
      ⟨MeasureScope.dataset, "raw", none, StatKind.mean⟩ = some 5 := by
  obtain ⟨h1, h2, h3, h4, h5⟩ := fixed_stats_override
    (ModelDescr.v0_5
      [⟨"raw", [⟨"x", AxisSizeV5.fixed 3⟩],
        [⟨"zero_mean_unit_variance",
          [⟨MeasureScope.dataset, "raw", none, StatKind.mean⟩]⟩]⟩] [])
    [⟨[("raw", ⟨["x"], [3], [3, 1, 2]⟩)]⟩] false
    [(⟨MeasureScope.dataset, "raw", none, StatKind.mean⟩, 5)]
    ⟨MeasureScope.dataset, "raw", none, StatKind.mean⟩ 5 (by decide)
  exact ⟨h1, h2, h4 []⟩

/-! ## C7: parametrized-input test cases -/

theorem runParametrizedCases_error_none_iff (fwd : List Tensor → List Tensor)
    (cs : List (Nat × ParametrizedTestCase)) :
    (runParametrizedCases fwd cs).1 = none ↔
      ∀ c ∈ cs, checkCaseShapes c.1 c.2.expected_output_shapes (fwd c.2.inputs) = none := by
  induction cs with
  | nil => simp [runParametrizedCases]
  | cons c rest ih =>
    cases hc : checkCaseShapes c.1 c.2.expected_output_shapes (fwd c.2.inputs) with
    | some e => simp [runParametrizedCases, hc]
    | none => simpa [runParametrizedCases, hc] using ih

theorem runParametrizedCases_all_processed (fwd : List Tensor → List Tensor)
    (cs : List (Nat × ParametrizedTestCase))
    (h : (runParametrizedCases fwd cs).1 = none) :
    (runParametrizedCases fwd cs).2 = cs.map Prod.fst := by
  induction cs with
  | nil => rfl
  | cons c rest ih =>
    cases hc : checkCaseShapes c.1 c.2.expected_output_shapes (fwd c.2.inputs) with
    | some e => simp [runParametrizedCases, hc] at h
    | none =>
      simp only [runParametrizedCases, hc] at h ⊢
      simp [ih h]

theorem foldZipShapeEq (n : Nat) (allexp : List (List Nat)) (r1 : List Tensor) :
    ∀ (r2 : List Tensor) (exp : List (List Nat)) (acc : Option String),
      r1.map Tensor.shape = r2.map Tensor.shape →
      (r1.zip exp).foldl
        (fun error p =>
          if p.1.shape ≠ p.2 then
            some ((error.getD "") ++ "(n=" ++ toString n ++ ") Expected output shape " ++
              toString allexp ++ ", but got " ++ toString p.1.shape ++ "\n")
          else error) acc =
      (r2.zip exp).foldl
        (fun error p =>
          if p.1.shape ≠ p.2 then
            some ((error.getD "") ++ "(n=" ++ toString n ++ ") Expected output shape " ++
              toString allexp ++ ", but got " ++ toString p.1.shape ++ "\n")
          else error) acc := by
  induction r1 with
  | nil =>
    intro r2 exp acc h
    have : r2 = [] := by
      cases r2 with
      | nil => rfl
      | cons t ts => simp at h
    rw [this]
  | cons t ts ih =>
    intro r2 exp acc h
    cases r2 with
    | nil => simp at h
    | cons t2 ts2 =>
      simp only [List.map_cons, List.cons.injEq] at h
      obtain ⟨hh, ht⟩ := h
      cases exp with
      | nil => rfl
      | cons e es =>
        simp only [List.zip_cons_cons, List.foldl_cons]
        rw [hh]
        exact ih ts2 es _ ht

theorem checkCaseShapes_shape_only (n : Nat) (exp : List (List Nat))
    (r1 r2 : List Tensor) (h : r1.map Tensor.shape = r2.map Tensor.shape) :
    checkCaseShapes n exp r1 = checkCaseShapes n exp r2 := by
  have hlen : r1.length = r2.length := by
    have := congrArg List.length h
    simpa using this
  unfold checkCaseShapes
  rw [hlen]
  by_cases hl : r2.length ≠ exp.length
  · simp [hl]
  · simp only [hl, if_false]
    exact foldZipShapeEq n exp r1 r2 exp none h

theorem runParametrizedCases_shape_only (fwd g : List Tensor → List Tensor)
    (cs : List (Nat × ParametrizedTestCase))
    (h : ∀ inp, (fwd inp).map Tensor.shape = (g inp).map Tensor.shape) :
    runParametrizedCases fwd cs = runParametrizedCases g cs := by
  induction cs with
  | nil => rfl
  | cons c rest ih =>
    have hc := checkCaseShapes_shape_only c.1 c.2.expected_output_shapes _ _
      (h c.2.inputs)
    simp only [runParametrizedCases]
    rw [hc]
    cases checkCaseShapes c.1 c.2.expected_output_shapes (g c.2.inputs) with
    | some e => rfl
    | none => rw [ih]

/-- C7 counterexample: with a v0.5 model that does declare a parameterized
input axis and a first synthetic case (n = 0) that fails its output-count
check, the loop `break`s after recording the failure: only n = 0 is ever
forwarded through the pipeline, so the remaining cases n = 1, 2, 3 are NOT
run, contradicting the claim that each of n ∈ {0,1,2,3} is run. -/
theorem parametrized_inputs_counterexample :
    (_test_model_inference_with_parametrized_inputs
        [⟨"input", [⟨"x", AxisSizeV5.parameterized 16 8⟩], []⟩]
        (fun _ => ⟨[], [[1]]⟩) (fun _ => []) none).2 = [0] ∧
    (_test_model_inference_with_parametrized_inputs
        [⟨"input", [⟨"x", AxisSizeV5.parameterized 16 8⟩], []⟩]
        (fun _ => ⟨[], [[1]]⟩) (fun _ => []) none).2 ≠ [0, 1, 2, 3] ∧
    (∃ d, (_test_model_inference_with_parametrized_inputs
        [⟨"input", [⟨"x", AxisSizeV5.parameterized 16 8⟩], []⟩]
        (fun _ => ⟨[], [[1]]⟩) (fun _ => []) none).1 = some d ∧
      d.status = "failed") ∧
    hasParameterizedInputAxis
      [⟨"input", [⟨"x", AxisSizeV5.parameterized 16 8⟩], []⟩] = true := by
  refine ⟨rfl, ?_, ⟨_, rfl, rfl⟩, rfl⟩
  intro h
  have h2 : ([0] : List Nat) = [0, 1, 2, 3] := by
    rw [← h]
    rfl
  simp at h2

/-- C7 amended: for every v0.5 model description with at least one input
axis of parameterized size, the testing entry point generates synthetic
test cases for exactly the parameter values n ∈ {0,1,2,3}, runs them in
order through the (per-test freshly scoped) prediction pipeline stopping at
the first case that records a mismatch — all four are run when all pass —
asserts only output shape correctness (the recorded detail is invariant
under changing output values so long as shapes agree), and records an
encountered shape or output-count mismatch as a failed detail. -/
theorem parametrized_inputs_amended (inputs : List InputTensorDescrV5)
    (case_for : Nat → ParametrizedTestCase)
    (pipeline_forward g : List Tensor → List Tensor) (weight_format : Option String)
    (hpar : hasParameterizedInputAxis inputs = true)
    (hshape : ∀ inp,
      (pipeline_forward inp).map Tensor.shape = (g inp).map Tensor.shape) :
    (generate_test_cases case_for).map Prod.fst = [0, 1, 2, 3] ∧
    ∃ detail,
      (_test_model_inference_with_parametrized_inputs inputs case_for pipeline_forward
          weight_format).1 = some detail ∧
      (detail.status = "passed" ∨ detail.status = "failed") ∧
      (detail.status = "failed" ↔ ∃ c ∈ generate_test_cases case_for,
        checkCaseShapes c.1 c.2.expected_output_shapes
          (pipeline_forward c.2.inputs) ≠ none) ∧
      (detail.status = "passed" →
        (_test_model_inference_with_parametrized_inputs inputs case_for
            pipeline_forward weight_format).2 = [0, 1, 2, 3]) ∧
      _test_model_inference_with_parametrized_inputs inputs case_for pipeline_forward
          weight_format =
        _test_model_inference_with_parametrized_inputs inputs case_for g
          weight_format := by
  refine ⟨rfl, ?_⟩
  have hcond : (hasParameterizedInputAxis inputs = false) = False := by
    simp [hpar]
  refine ⟨⟨"Reproduce test outputs from test inputs",
    if (runParametrizedCases pipeline_forward (generate_test_cases case_for)).1 = none
      then "passed" else "failed",
    match (runParametrizedCases pipeline_forward (generate_test_cases case_for)).1 with
    | none => []
    | some msg => [⟨errLoc weight_format, msg, "bioimageio.core", []⟩]⟩, ?_, ?_, ?_, ?_, ?_⟩
  · unfold _test_model_inference_with_parametrized_inputs
    simp only [hcond, if_false]
  · by_cases hr :
        (runParametrizedCases pipeline_forward (generate_test_cases case_for)).1 = none
    · left
      simp [hr]
    · right
      simp [hr]
  · by_cases hr :
        (runParametrizedCases pipeline_forward (generate_test_cases case_for)).1 = none
    · simp only [hr, if_true]
      constructor
      · intro hpf
        exact absurd hpf (by decide)
      · intro hex
        rcases hex with ⟨c, hc, hne⟩
        exact absurd ((runParametrizedCases_error_none_iff _ _).mp hr c hc) hne
    · constructor
      · intro _
        by_contra hall
        push_neg at hall
        exact hr ((runParametrizedCases_error_none_iff _ _).mpr hall)
      · intro _
        simp [hr]
  · intro hpass
    by_cases hr :
        (runParametrizedCases pipeline_forward (generate_test_cases case_for)).1 = none
    · unfold _test_model_inference_with_parametrized_inputs
      simp only [hcond, if_false]
      rw [runParametrizedCases_all_processed _ _ hr]
      rfl
    · rw [if_neg hr] at hpass
      have hps : ("failed" : String) = "passed" := hpass
      exact absurd hps (by decide)
  · unfold _test_model_inference_with_parametrized_inputs
    rw [runParametrizedCases_shape_only pipeline_forward g _ hshape]

/-- Witness for C7 (amended): a model with a parameterized axis whose four
synthetic cases all pass their shape checks runs every n ∈ {0,1,2,3}. -/
theorem parametrized_inputs_amended_witness :
    (_test_model_inference_with_parametrized_inputs
        [⟨"input", [⟨"x", AxisSizeV5.parameterized 16 8⟩], []⟩]
        (fun _ => ⟨[], []⟩) (fun _ => []) none).2 = [0, 1, 2, 3] := by
  obtain ⟨hgen, detail, hd, hstat, hiff, hrun, hagree⟩ := parametrized_inputs_amended
    [⟨"input", [⟨"x", AxisSizeV5.parameterized 16 8⟩], []⟩]
    (fun _ => ⟨[], []⟩) (fun _ => []) (fun _ => []) none rfl (fun _ => rfl)
  apply hrun
  rcases hstat with hp | hf
  · exact hp
  · exfalso
    rcases hiff.mp hf with ⟨c, hc, hne⟩
    have hc4 : c = ((0 : Nat), (⟨[], []⟩ : ParametrizedTestCase)) ∨
        c = ((1 : Nat), (⟨[], []⟩ : ParametrizedTestCase)) ∨
        c = ((2 : Nat), (⟨[], []⟩ : ParametrizedTestCase)) ∨
        c = ((3 : Nat), (⟨[], []⟩ : ParametrizedTestCase)) := by
      simpa [generate_test_cases] using hc
    rcases hc4 with h | h | h | h <;> (subst h; exact hne rfl)
